import Mathlib

/-!
Verification of the CubeMaster PoC repository (`app/main.py`,
`app/cubemaster_client.py`, `app/excel_transformer.py`) against its
natural-language specification.

The development shallowly embeds the Python code: JSON values become an
inductive type, pandas DataFrames become a structure of named columns and
rows of cells, the pandas operations used by the code
(`pd.json_normalize(..., sep='.')`, `pd.concat(..., ignore_index=True)`,
column assignment) are modelled from their documented behaviour on the
shapes the code feeds them, and the stateful endpoint handlers become
explicit state-passing functions over a store of named files.  Fallible
environment steps (the remote HTTP call, filesystem writes) are passed in
as explicit outcome parameters mirroring the `try`/`except` structure of
the source.
-/

namespace CubePoC

/-- A Python/JSON value as handled by the service: `None`, booleans,
numbers (the claims only involve integer payloads, so numbers are
modelled as `Int`), strings, lists and dicts (assoc lists preserving
insertion order, as Python dicts do). -/
inductive Json where
  | null : Json
  | bool : Bool → Json
  | num : Int → Json
  | str : String → Json
  | arr : List Json → Json
  | obj : List (String × Json) → Json
deriving Repr

mutual
/-- Model of `json.dumps` with default separators, as used by `_serialize_cell`
in `app/main.py` to turn nested values into text. -/
def jsonDumps : Json → String
  | .null => "null"
  | .bool b => if b then "true" else "false"
  | .num n => toString n
  | .str s => "\"" ++ s ++ "\""
  | .arr xs => "[" ++ dumpsArr xs ++ "]"
  | .obj fs => "\x7b" ++ dumpsObj fs ++ "\x7d"

/-- Comma-separated rendering of a JSON array's elements. -/
def dumpsArr : List Json → String
  | [] => ""
  | [x] => jsonDumps x
  | x :: y :: xs => jsonDumps x ++ ", " ++ dumpsArr (y :: xs)

/-- Comma-separated rendering of a JSON object's entries. -/
def dumpsObj : List (String × Json) → String
  | [] => ""
  | [(k, v)] => "\"" ++ k ++ "\": " ++ jsonDumps v
  | (k, v) :: e :: xs => "\"" ++ k ++ "\": " ++ jsonDumps v ++ ", " ++ dumpsObj (e :: xs)
end

/-- Model of `isinstance(v, dict)`. -/
def isDict : Json → Bool
  | .obj _ => true
  | _ => false

/-- The entries of a JSON object (empty for non-objects). -/
def objFields : Json → List (String × Json)
  | .obj fs => fs
  | _ => []

/-- The elements of a JSON array (empty for non-arrays). -/
def arrElems : Json → List Json
  | .arr xs => xs
  | _ => []

/-- One cell of a pandas DataFrame: either a JSON value or the `NaN`
filler pandas inserts for missing columns. -/
inductive Cell where
  | na : Cell
  | val : Json → Cell
deriving Repr

/-- A pandas DataFrame as the code uses it: an ordered list of column
names and rows, each row holding one cell per column (in column order). -/
structure DataFrame where
  columns : List String
  rows : List (List Cell)
deriving Repr

/-- Model of `df.empty`: true when either axis has length zero. -/
def DataFrame.isEmpty (df : DataFrame) : Bool :=
  df.columns.isEmpty || df.rows.isEmpty

mutual
/-- Model of `pandas.io.json._normalize.nested_to_record` at level ≥ 1: every key
of a nested dict is popped and re-appended under its dotted path, so the
result lists the dict's entries depth-first in iteration order. -/
def nested_to_record (pre : String) : List (String × Json) → List (String × Json)
  | [] => []
  | (k, v) :: rest => recordEntry (pre ++ "." ++ k) v ++ nested_to_record pre rest

/-- One entry of `nested_to_record`: a dict value recurses under its
dotted key, any other value is kept whole under its dotted key. -/
def recordEntry (key : String) : Json → List (String × Json)
  | .obj fs => nested_to_record key fs
  | v => [(key, v)]
end

/-- Model of `nested_to_record` at level 0, the shape `pd.json_normalize(records,
sep='.')` applies to each record: non-dict values keep their original
position, while each dict-valued key is popped and its flattened entries
are appended at the end (Python dict `update` appends new keys). -/
def flattenRecord (fields : List (String × Json)) : List (String × Json) :=
  (fields.filter fun kv => !(isDict kv.2)) ++
    (fields.filter fun kv => isDict kv.2).flatMap
      (fun kv => nested_to_record kv.1 (objFields kv.2))

/-- Append the given keys to an ordered column list, keeping first
occurrences only (how pandas unions column labels across records). -/
def addCols (acc : List String) : List String → List String
  | [] => acc
  | c :: cs => addCols (if acc.contains c then acc else acc ++ [c]) cs

/-- Look a column up in a flattened record; a missing key becomes `NaN`. -/
def lookupCell (f : List (String × Json)) (c : String) : Cell :=
  match f.lookup c with
  | some v => Cell.val v
  | none => Cell.na

/-- Model of `pd.json_normalize(records, sep='.')`: flatten each record's nested
dicts into dotted-path keys, take the union of keys in first-appearance
order as columns, and fill missing cells with `NaN`. -/
def json_normalize (records : List (List (String × Json))) : DataFrame :=
  let flats := records.map flattenRecord
  let cols := flats.foldl (fun a f => addCols a (f.map Prod.fst)) []
  ⟨cols, flats.map fun f => cols.map (lookupCell f)⟩

/-- The cell of a row under a named column. -/
def rowCell (cols : List String) (r : List Cell) (c : String) : Cell :=
  match (cols.zip r).lookup c with
  | some x => x
  | none => Cell.na

/-- Model of `pd.concat(frames, ignore_index=True)`: one DataFrame whose columns
are the union (first-appearance order, `sort=False`) of the frames'
columns and whose rows are all frames' rows stacked, missing columns
filled with `NaN`. -/
def pdConcat (frames : List DataFrame) : DataFrame :=
  let cols := frames.foldl (fun a f => addCols a f.columns) []
  ⟨cols, frames.flatMap fun f => f.rows.map fun r => cols.map (rowCell f.columns r)⟩

/-- Model of `df[c] = v` with a scalar right-hand side: overwrite the column in
place when it exists, otherwise append it, broadcasting `v` to every
row. -/
def dfSetConstCol (df : DataFrame) (c : String) (v : Cell) : DataFrame :=
  if df.columns.contains c then
    ⟨df.columns, df.rows.map fun r => (df.columns.zip r).map fun p => if p.1 = c then v else p.2⟩
  else
    ⟨df.columns ++ [c], df.rows.map fun r => r ++ [v]⟩

/-- Model of `_serialize_cell` from `app/main.py`: dicts and lists are serialised
to their JSON text; every other value (including `NaN`) passes through. -/
def serialize_cell : Cell → Cell
  | .val (.obj fs) => .val (.str (jsonDumps (.obj fs)))
  | .val (.arr xs) => .val (.str (jsonDumps (.arr xs)))
  | c => c

/-- The final loop of `_response_to_dataframe`: apply `_serialize_cell`
to every cell of every column. -/
def serializeFrame (df : DataFrame) : DataFrame :=
  ⟨df.columns, df.rows.map fun r => r.map serialize_cell⟩

/-- The candidate ("collection key") test of `_response_to_dataframe`:
`isinstance(value, list) and value and all(isinstance(item, dict) for
item in value)`. -/
def isCollectionValue : Json → Bool
  | .arr xs => !xs.isEmpty && xs.all isDict
  | _ => false

/-- The per-collection-key frame built inside `_response_to_dataframe`:
normalize the records, prefix every column with `<key>.`, then broadcast
each context column onto every row. -/
def keyFrame (contextFlat : Option DataFrame) (key : String) (records : List Json) :
    DataFrame :=
  let df0 := json_normalize (records.map objFields)
  let dfK : DataFrame := ⟨df0.columns.map fun c => key ++ "." ++ c, df0.rows⟩
  match contextFlat with
  | none => dfK
  | some ctx =>
      ctx.columns.foldl
        (fun df c => dfSetConstCol df c (rowCell ctx.columns (ctx.rows.headI) c)) dfK

/-- Model of `_response_to_dataframe` from `app/main.py`: lists of dicts are
normalized as records; other lists become a single `value` column; for a
dict, every top-level key holding a non-empty list of dicts becomes a
collection key whose records are flattened, column-prefixed and given the
remaining ("context") keys as broadcast columns, and all resulting frames
are concatenated into one DataFrame; a dict without collection keys is
flattened as a single record; a scalar becomes a one-cell `value` frame.
Nested cells are then serialised to JSON text (unless the frame is
empty). -/
def response_to_dataframe (response_data : Json) : DataFrame :=
  let df :=
    match response_data with
    | .arr xs =>
        if xs.isEmpty then ⟨[], []⟩
        else if xs.all isDict then json_normalize (xs.map objFields)
        else ⟨["value"], xs.map fun x => [Cell.val x]⟩
    | .obj fields =>
        let candidateKeys := (fields.filter fun kv => isCollectionValue kv.2).map Prod.fst
        if candidateKeys.isEmpty then
          json_normalize [fields]
        else
          let context := fields.filter fun kv => !(candidateKeys.contains kv.1)
          let contextFlat : Option DataFrame :=
            if context.isEmpty then none else some (json_normalize [context])
          let frames := candidateKeys.filterMap fun key =>
            let records := arrElems ((fields.lookup key).getD (.arr []))
            if records.isEmpty then none
            else some (keyFrame contextFlat key records)
          if frames.isEmpty then ⟨[], []⟩ else pdConcat frames
    | v => ⟨["value"], [[Cell.val v]]⟩
  if df.isEmpty then df else serializeFrame df

/-- Model of `convert_cubemaster_response_to_csv` from `app/main.py`, up to the
tabular level (the CSV text rendering is a faithful image of the frame
and is not claimed about): an empty frame is replaced by the placeholder
`message` table, and the row count of the written frame is returned. -/
def convert_cubemaster_response_to_csv (response_data : Json) : DataFrame × Nat :=
  let df := response_to_dataframe response_data
  let df' :=
    if df.isEmpty then
      ⟨["message"], [[Cell.val (.str "CubeMaster response was empty")]]⟩
    else df
  (df', df'.rows.length)

/-! ### `app/excel_transformer.py` -/

/-- The character class of `re.sub(r'[\\/*?:\[\]]', '_', name)` in
`sanitize_sheet_name`. -/
def forbiddenChar (c : Char) : Bool :=
  c = '\\' || c = '/' || c = '*' || c = '?' || c = ':' || c = '[' || c = ']'

/-- Model of `sanitize_sheet_name` from `app/excel_transformer.py`: replace every
forbidden character with an underscore, then truncate to the 31-character
head when longer. -/
def sanitize_sheet_name (name : String) : String :=
  let replaced := name.toList.map fun c => if forbiddenChar c then '_' else c
  if replaced.length > 31 then String.mk (replaced.take 31) else String.mk replaced

/-- Model of `str(v)` for the JSON values interpolated into sheet names; only
numbers and strings occur in the claims' inputs, the remaining scalars
follow Python's `str`, and composite values (which the code would render
via `repr`) are approximated by their JSON text — no claim exercises
them. -/
def pyStr : Json → String
  | .num n => toString n
  | .str s => s
  | .bool b => if b then "True" else "False"
  | .null => "None"
  | v => jsonDumps v

/-- Model of `container.get(key, default)` on a JSON object. -/
def jsonGet (j : Json) (key : String) (default : Json) : Json :=
  ((objFields j).lookup key).getD default

/-- Model of `criar_planilha_summary` from `app/excel_transformer.py`: one row of
the ten `loadSummary` metrics, each defaulting to `0`. -/
def criar_planilha_summary (data : Json) : DataFrame :=
  let ls := jsonGet data "loadSummary" (.obj [])
  let keys := ["cargoesLoaded", "piecesLoaded", "cargoesLeft", "piecesLeft",
               "unitloadsLoaded", "volumeLoaded", "weightLoaded", "priceLoaded",
               "containersLoaded", "containersLeft"]
  ⟨keys, [keys.map fun k => Cell.val (jsonGet ls k (.num 0))]⟩

/-- Model of `criar_planilha_container` from `app/excel_transformer.py`: one row
per manifest item with the eight fixed cargo fields (an empty manifest
yields an empty frame, as `pd.DataFrame([])` does). -/
def criar_planilha_container (container : Json) : DataFrame :=
  let manifest := arrElems (jsonGet container "manifest" (.arr []))
  let cols := ["sequence", "cargoName", "qty", "pieces", "length", "width", "height", "weight"]
  let mkRow : Json → List Cell := fun item =>
    let cargo := jsonGet item "cargo" (.obj [])
    [Cell.val (jsonGet item "sequence" (.str "")),
     Cell.val (jsonGet cargo "name" (.str "")),
     Cell.val (jsonGet cargo "qty" (.num 0)),
     Cell.val (jsonGet item "piecesLoaded" (.num 0)),
     Cell.val (jsonGet cargo "length" (.num 0)),
     Cell.val (jsonGet cargo "width" (.num 0)),
     Cell.val (jsonGet cargo "height" (.num 0)),
     Cell.val (jsonGet cargo "weight" (.num 0))]
  if manifest.isEmpty then ⟨[], []⟩ else ⟨cols, manifest.map mkRow⟩

/-- A filesystem-visible action performed by `transformar_json_para_excel`.
`openWriter p` is `pd.ExcelWriter(p, engine='openpyxl')`, `writeSheet` is
one `df.to_excel(writer, sheet_name=...)` call, `saveClose p` is the
writer's close (which saves the workbook at `p`), and `renameFile` is a
filesystem rename — listed so its absence from every emitted trace is
expressible. -/
inductive FsOp where
  | openWriter : String → FsOp
  | writeSheet : String → FsOp
  | saveClose : String → FsOp
  | renameFile : String → String → FsOp
deriving Repr, DecidableEq

/-- The statistics accumulated by `transformar_json_para_excel`. -/
structure ExcelStats where
  total_sheets : Nat
  summary_created : Bool
  containers_processed : Nat
  total_cargo_items : Nat
deriving Repr, DecidableEq

/-- The `sheet_name` computed inside the container loop of
`transformar_json_para_excel`: `container_<sequence>_<name>`, sanitized,
with the defaults the code's `.get` calls supply. -/
def containerSheetName (container : Json) : String :=
  let sequence := jsonGet container "sequence" (.num 0)
  let name := pyStr (jsonGet container "name" (.str ("Container_" ++ pyStr sequence)))
  sanitize_sheet_name ("container_" ++ pyStr sequence ++ "_" ++ name)

/-- Model of `transformar_json_para_excel` from `app/excel_transformer.py`: open a
writer at `excel_path` itself, write the `summary` sheet, then one
sanitized `container_<sequence>_<name>` sheet per entry of
`filledContainers`, and close the writer (saving at `excel_path`).  The
result is the exact sequence of filesystem actions plus the statistics
dict the function builds. -/
def transformar_json_para_excel (response_data : Json) (excel_path : String) :
    List FsOp × ExcelStats :=
  let containers := arrElems (jsonGet response_data "filledContainers" (.arr []))
  let ops := [FsOp.openWriter excel_path, FsOp.writeSheet "summary"] ++
    containers.map (fun c => FsOp.writeSheet (containerSheetName c)) ++
    [FsOp.saveClose excel_path]
  let stats : ExcelStats :=
    { total_sheets := 1 + containers.length
      summary_created := true
      containers_processed := containers.length
      total_cargo_items := (containers.map fun c => (criar_planilha_container c).rows.length).sum }
  (ops, stats)

/-- Does a trace contain any rename action? -/
def hasRename : List FsOp → Bool
  | [] => false
  | FsOp.renameFile _ _ :: _ => true
  | _ :: ops => hasRename ops

/-- Does every action of a trace address only the given path (sheet
writes go through the writer opened on that path)? -/
def opsTargetOnly (p : String) : List FsOp → Bool
  | [] => true
  | FsOp.openWriter q :: ops => q = p && opsTargetOnly p ops
  | FsOp.writeSheet _ :: ops => opsTargetOnly p ops
  | FsOp.saveClose q :: ops => q = p && opsTargetOnly p ops
  | FsOp.renameFile q r :: ops => q = p && r = p && opsTargetOnly p ops

/-! ### `app/cubemaster_client.py` -/

/-- A Python exception as the layers of the code distinguish them:
`httpStatusError` is `httpx.HTTPStatusError` (carries the response
status and text), `transportExc` is any other `httpx` transport
exception (connect error, timeout, ...), and `exc` is a plain
`Exception`. -/
inductive PyErr where
  | httpStatusError : Nat → String → PyErr
  | transportExc : String → PyErr
  | exc : String → PyErr
deriving Repr, DecidableEq

/-- The outcome of the underlying HTTP POST: either a response with a
status code, a parsed JSON body and a raw text body, or a transport
failure. -/
inductive HttpOutcome where
  | response : Nat → Json → String → HttpOutcome
  | transportError : String → HttpOutcome
deriving Repr

/-- Model of `CubeMasterClient.optimize_load` from `app/cubemaster_client.py`.
`response.raise_for_status()` raises `httpx.HTTPStatusError` for status
≥ 400; the handler converts it to a plain `Exception` whose message is
always built from the raw response text (the inner `raise` that would
use the parsed `message` field is itself swallowed by the bare
`except:`).  Transport exceptions are logged and re-raised unchanged. -/
def optimize_load (outcome : HttpOutcome) : Except PyErr Json :=
  match outcome with
  | .response status body text =>
      if status ≥ 400 then
        .error (.exc ("Erro " ++ toString status ++ " da API CubeMaster: " ++ text))
      else .ok body
  | .transportError msg => .error (.transportExc msg)

/-- Model of `CubeMasterClient.test_connection` from `app/cubemaster_client.py`:
`True` exactly when the GET returns a response with status < 500; any
exception yields `False`. -/
def test_connection (outcome : Except String Nat) : Bool :=
  match outcome with
  | .ok status => status < 500
  | .error _ => false

/-- The fields of the `/health` response that depend on the connectivity
check. -/
structure HealthReport where
  status : String
  cubemaster_api : String
deriving Repr, DecidableEq

/-- Model of `health_check` from `app/main.py`: map the connectivity boolean to
`healthy`/`degraded` and `connected`/`disconnected`.  It is a total
function of the check's outcome — no branch raises. -/
def health_check (outcome : Except String Nat) : HealthReport :=
  let cubemaster_status := test_connection outcome
  { status := if cubemaster_status then "healthy" else "degraded"
    cubemaster_api := if cubemaster_status then "connected" else "disconnected" }

/-! ### `app/main.py`: the durable pipeline -/

/-- The file stores the endpoints touch: `json_pendiente` and
`json_procesado` hold named JSON payloads, `csv_procesado` holds named
tabular artifacts, and `error_logs` records the `error_*.log` files
written by `save_error_log`. -/
structure AppState where
  pendiente : List (String × Json)
  procesado : List (String × Json)
  csv_procesado : List (String × DataFrame)
  error_logs : List String
deriving Repr

/-- The empty stores. -/
def AppState.init : AppState := ⟨[], [], [], []⟩

/-- Outcome of the `/optimize-load` endpoint: the HTTP success payload
(paths and row count) or the `HTTPException` raised. -/
inductive EndpointResult where
  | success : Option String → String → Nat → EndpointResult
  | httpError : Nat → String → EndpointResult
deriving Repr

/-- The environment a single `/optimize-load` request runs against: the
remote call's outcome plus one flag per fallible local step, mirroring
the four `try`/`except` blocks of the handler (`True` = the step's IO
raises no exception). -/
structure ReqEnv where
  remote : HttpOutcome
  savePendEnvOk : Bool
  moveEnvOk : Bool
  convertEnvOk : Bool
  saveCsvEnvOk : Bool

/-- Model of `save_to_json_pendiente` from `app/main.py`: persist the payload as
`request_<timestamp>_<id>.json` in the pending store. -/
def save_to_json_pendiente (payload : Json) (request_id timestamp : String)
    (st : AppState) : String × AppState :=
  let filename := "request_" ++ timestamp ++ "_" ++ request_id ++ ".json"
  (filename, { st with pendiente := st.pendiente ++ [(filename, payload)] })

/-- Model of `move_to_json_procesado` from `app/main.py`: write the record under
`processed_<timestamp>_<id>.json` in the processed store, then delete it
from the pending store. -/
def move_to_json_procesado (pendiente_name : String) (request_id timestamp : String)
    (st : AppState) : String × AppState :=
  let content := ((st.pendiente.lookup pendiente_name).getD .null)
  let filename := "processed_" ++ timestamp ++ "_" ++ request_id ++ ".json"
  (filename,
   { st with
       procesado := st.procesado ++ [(filename, content)]
       pendiente := st.pendiente.filter fun kv => !(kv.1 == pendiente_name) })

/-- Model of `save_to_csv_procesado` from `app/main.py`: persist the artifact as
`result_<timestamp>_<id>.csv`. -/
def save_to_csv_procesado (df : DataFrame) (request_id timestamp : String)
    (st : AppState) : String × AppState :=
  let filename := "result_" ++ timestamp ++ "_" ++ request_id ++ ".csv"
  (filename, { st with csv_procesado := st.csv_procesado ++ [(filename, df)] })

/-- Model of `save_error_log` from `app/main.py`: record an `error_*.log` entry. -/
def save_error_log (request_id timestamp msg : String) (st : AppState) : AppState :=
  { st with error_logs := st.error_logs ++ ["error_" ++ timestamp ++ "_" ++ request_id ++ ": " ++ msg] }

/-- Model of `optimize_container_load` (`POST /optimize-load`) from
`app/main.py`, step by step: (1) save the payload to the pending store;
(2) call the remote API, mapping `httpx.HTTPStatusError` to its own
status (or 502 when ≥ 500) and every other exception to a 500; (3) move
the pending record to the processed store — a failure here is swallowed
and only nulls the reported path; (4) convert the response to the
tabular artifact — a failure raises a 500; (5) save the artifact — a
failure raises a 500. -/
def optimize_container_load (env : ReqEnv) (payload : Json)
    (request_id timestamp : String) (st : AppState) : EndpointResult × AppState :=
  -- Passo 1: salvar em json_pendiente
  if !env.savePendEnvOk then
    (.httpError 500 "Erro ao salvar payload", st)
  else
    let (pendiente_name, st1) := save_to_json_pendiente payload request_id timestamp st
    -- Passo 2: processar via API CubeMaster
    match optimize_load env.remote with
    | .error (.httpStatusError status text) =>
        let st2 := save_error_log request_id timestamp
          ("Erro " ++ toString status ++ " da API CubeMaster") st1
        (.httpError (if status < 500 then status else 502) text, st2)
    | .error (.transportExc msg) =>
        let st2 := save_error_log request_id timestamp ("Erro no processamento: " ++ msg) st1
        (.httpError 500 ("Erro no processamento: " ++ msg), st2)
    | .error (.exc msg) =>
        let st2 := save_error_log request_id timestamp ("Erro no processamento: " ++ msg) st1
        (.httpError 500 ("Erro no processamento: " ++ msg), st2)
    | .ok result =>
        -- Passo 3: mover para json_procesado (falha é engolida)
        let (procesado_path, st3) :=
          if env.moveEnvOk then
            let (n, s) := move_to_json_procesado pendiente_name request_id timestamp st1
            (some n, s)
          else (none, st1)
        -- Passo 4: converter para CSV
        if !env.convertEnvOk then
          (.httpError 500 "Erro na conversão CSV", st3)
        else
          let (df, row_count) := convert_cubemaster_response_to_csv result
          -- Passo 5: salvar CSV em csv_procesado
          if !env.saveCsvEnvOk then
            (.httpError 500 "Erro ao salvar CSV", st3)
          else
            let (csv_path, st4) := save_to_csv_procesado df request_id timestamp st3
            (.success procesado_path csv_path row_count, st4)

/-! ### `app/main.py`: the batch reconciler -/

/-- The aggregate counters built by `process_pending_files`
(`details` keeps each file's reported status string). -/
structure BatchStats where
  total_files : Nat
  processed : Nat
  failed : Nat
  details : List (String × String)
deriving Repr, DecidableEq

/-- The per-file body of the `process_pending_files` loop: on a
successful remote call the record is copied to the processed store, the
artifact is written, and only then is the pending record deleted; any
exception is caught, counted as a failure, and leaves the stores
untouched. -/
def processOneFile (remote : Json → Except PyErr Json) (st : AppState)
    (stats : BatchStats) (base_name : String) (payload : Json) :
    AppState × BatchStats :=
  match remote payload with
  | .ok result =>
      let st1 := { st with procesado := st.procesado ++ [(base_name, payload)] }
      let (df, _) := convert_cubemaster_response_to_csv result
      let st2 := { st1 with csv_procesado := st1.csv_procesado ++ [(base_name ++ ".csv", df)] }
      let st3 := { st2 with pendiente := st2.pendiente.filter fun kv => !(kv.1 == base_name) }
      (st3, { stats with
                processed := stats.processed + 1
                details := stats.details ++ [(base_name, "success")] })
  | .error _ =>
      (st, { stats with
               failed := stats.failed + 1
               details := stats.details ++ [(base_name, "failed")] })

/-- The loop of `process_pending_files` over the snapshot of pending
files taken by `glob`. -/
def processLoop (remote : Json → Except PyErr Json) :
    List (String × Json) → AppState → BatchStats → AppState × BatchStats
  | [], st, stats => (st, stats)
  | (base_name, payload) :: files, st, stats =>
      let (st', stats') := processOneFile remote st stats base_name payload
      processLoop remote files st' stats'

/-- Model of `process_pending_files` (`GET /process-pending-files`) from
`app/main.py`: snapshot the pending store, return the `no_files` result
when it is empty, otherwise drive every file through the remote call +
export path, counting successes and failures without letting any file's
exception abort the loop. -/
def process_pending_files (remote : Json → Except PyErr Json) (st : AppState) :
    BatchStats × AppState :=
  let json_files := st.pendiente
  if json_files.isEmpty then
    (⟨0, 0, 0, []⟩, st)
  else
    let (st', stats) := processLoop remote json_files st ⟨json_files.length, 0, 0, []⟩
    (stats, st')

/-! ### Concrete inputs used by the claim theorems -/

/-- The round-trip input of §8: an object with one collection key
`items` (one element with a nested field) and one context key `ctx`. -/
def roundtripInput : Json :=
  .obj [("items", .arr [.obj [("a", .num 1), ("b", .obj [("c", .num 2)])]]),
        ("ctx", .str "x")]

/-- An object with two collection keys `items` and `boxes` plus a
context key `ctx`. -/
def twoKeyInput : Json :=
  .obj [("items", .arr [.obj [("a", .num 1)]]),
        ("boxes", .arr [.obj [("b", .num 2)]]),
        ("ctx", .str "x")]

/-- A CubeMaster response with two filled containers, for the export
trace. -/
def twoContainerResponse : Json :=
  .obj [("loadSummary", .obj [("cargoesLoaded", .num 5)]),
        ("filledContainers",
         .arr [.obj [("sequence", .num 1), ("name", .str "C40"),
                     ("manifest", .arr [.obj [("sequence", .num 1),
                                              ("piecesLoaded", .num 3),
                                              ("cargo", .obj [("name", .str "box"),
                                                              ("qty", .num 3)])]])],
               .obj [("sequence", .num 2), ("name", .str "C20"),
                     ("manifest", .arr [])]])]

/-! ### Claim theorems -/

/-- Claim C1 (code bug).  The spec demands that during `advance` the
pending record is deleted only after the export artifact is written.
The code of `optimize_container_load` deletes the pending record inside
`move_to_json_procesado` (step 3) *before* the CSV conversion (step 4)
and CSV save (step 5): evaluating the handler with a failing CSV
conversion, and again with a failing CSV save, shows the error surfaced
as a 500 while the pending store no longer holds the record (it was
already moved to the processed store) — delete happens before the
artifact write, contradicting both the spec and the delete-after-success
policy the sibling `process_pending_files` loop implements. -/
theorem C1_pending_deleted_before_artifact_write :
    (let env : ReqEnv := ⟨.response 200 (.obj [("r", .num 1)]) "", true, true, false, true⟩
     let out := optimize_container_load env (.obj [("p", .num 0)]) "id1" "t1" AppState.init
     out.1 = .httpError 500 "Erro na conversão CSV" ∧
       out.2.pendiente = [] ∧
       out.2.procesado = [("processed_t1_id1.json", .obj [("p", .num 0)])]) ∧
    (let env : ReqEnv := ⟨.response 200 (.obj [("r", .num 1)]) "", true, true, true, false⟩
     let out := optimize_container_load env (.obj [("p", .num 0)]) "id1" "t1" AppState.init
     out.1 = .httpError 500 "Erro ao salvar CSV" ∧
       out.2.pendiente = [] ∧
       out.2.csv_procesado = []) :=
  ⟨⟨rfl, rfl, rfl⟩, ⟨rfl, rfl, rfl⟩⟩

/-- Claim C2 (code bug).  The spec maps a remote failure with status < 500
to a client-facing error of the same status and a ≥ 500 or transport
failure to a 502.  `CubeMasterClient.optimize_load` converts every
`httpx.HTTPStatusError` into a plain `Exception`, so the
status-preserving `except httpx.HTTPStatusError` handler in
`optimize_container_load` (which does implement the `< 500`/502 mapping)
can never fire: a remote 404 surfaces as a 500, a remote 503 surfaces as
a 500, and a transport failure surfaces as a 500. -/
theorem C2_remote_failures_all_surface_500 :
    (∀ outcome status text, optimize_load outcome ≠ .error (.httpStatusError status text)) ∧
    (let env : ReqEnv := ⟨.response 404 .null "Not Found", true, true, true, true⟩
     (optimize_container_load env (.obj []) "id1" "t1" AppState.init).1 =
       .httpError 500 "Erro no processamento: Erro 404 da API CubeMaster: Not Found") ∧
    (let env : ReqEnv := ⟨.response 503 .null "Unavailable", true, true, true, true⟩
     (optimize_container_load env (.obj []) "id1" "t1" AppState.init).1 =
       .httpError 500 "Erro no processamento: Erro 503 da API CubeMaster: Unavailable") ∧
    (let env : ReqEnv := ⟨.transportError "timeout", true, true, true, true⟩
     (optimize_container_load env (.obj []) "id1" "t1" AppState.init).1 =
       .httpError 500 "Erro no processamento: timeout") := by
  refine ⟨?_, rfl, rfl, rfl⟩
  intro outcome status text h
  match outcome with
  | .response s body t =>
      simp only [optimize_load] at h
      split at h <;> simp_all
  | .transportError m => simp [optimize_load] at h

/-- Claim C3 (confirmed).  Flattening
`\x7b"items": [\x7b"a":1,"b":\x7b"c":2\x7d\x7d], "ctx": "x"\x7d` yields
exactly one table with columns `["items.a", "items.b.c", "ctx"]` in that
order and the single row `[1, 2, "x"]`. -/
theorem C3_roundtrip_flatten :
    response_to_dataframe roundtripInput =
      ⟨["items.a", "items.b.c", "ctx"],
       [[Cell.val (.num 1), Cell.val (.num 2), Cell.val (.str "x")]]⟩ :=
  rfl

/-- Claim C5, counterexample (claim corrected).  The claim states that
`\x7b"items": []\x7d` flattens to the placeholder `message` table.  In
the code an empty list is falsy, so `items` is *not* a collection key;
the object is flattened as a single record whose `items` cell is the
serialised empty list: the resulting table has the single column
`items` (not `message`) and one row holding the text `[]`. -/
theorem C5_items_empty_counterexample :
    convert_cubemaster_response_to_csv (.obj [("items", .arr [])]) =
      (⟨["items"], [[Cell.val (.str "[]")]]⟩, 1) ∧
    (convert_cubemaster_response_to_csv (.obj [("items", .arr [])])).1.columns ≠
      ["message"] :=
  ⟨rfl, by decide⟩

/-- Claim C5, amended.  For the empty-list input `[]` the placeholder
table with the single informational `message` row is produced, as
claimed; for `\x7b"items": []\x7d` the result is instead the one-row
table whose single column `items` holds the serialised empty list. -/
theorem C5_placeholder_amended :
    convert_cubemaster_response_to_csv (.arr []) =
      (⟨["message"], [[Cell.val (.str "CubeMaster response was empty")]]⟩, 1) ∧
    convert_cubemaster_response_to_csv (.obj [("items", .arr [])]) =
      (⟨["items"], [[Cell.val (.str "[]")]]⟩, 1) :=
  ⟨rfl, rfl⟩

/-- Claim C9 (confirmed).  The flattening path of the code
(`_response_to_dataframe` followed by the placeholder substitution of
`convert_cubemaster_response_to_csv`) is a pure function of the input
JSON value — Python dict iteration order is the deterministic insertion
order the embedding models — so two runs on the same value produce
tables with the same columns, the same rows and the same cell values. -/
theorem C9_flatten_deterministic (v : Json) :
    (response_to_dataframe v).columns = (response_to_dataframe v).columns ∧
    (response_to_dataframe v).rows = (response_to_dataframe v).rows ∧
    convert_cubemaster_response_to_csv v = convert_cubemaster_response_to_csv v :=
  ⟨rfl, rfl, rfl⟩

/-- Claim C10 (confirmed).  `test_connection` reports `True` exactly when
the GET produced a response with status < 500 (so 4xx client errors
count as reachable) and `False` exactly when the request raised or the
status is ≥ 500; `health_check` maps the boolean to
`connected`/`disconnected` and, being a total function of the outcome,
never raises. -/
theorem C10_test_connection_health (outcome : Except String Nat) :
    (test_connection outcome = true ↔ ∃ s, outcome = .ok s ∧ s < 500) ∧
    (health_check outcome).cubemaster_api =
      (if test_connection outcome then "connected" else "disconnected") ∧
    test_connection (.ok 404) = true ∧
    test_connection (.ok 401) = true ∧
    test_connection (.ok 500) = false ∧
    test_connection (.error "connect error") = false := by
  refine ⟨?_, rfl, rfl, rfl, rfl, rfl⟩
  match outcome with
  | .ok s => simp [test_connection]
  | .error e => simp [test_connection]

/-! ### Sheet-name sanitization (C6) -/

/-- Truncating branch of `sanitize_sheet_name`, at the character-list
level: the result is always the 31-character head of the replaced
list. -/
lemma truncIf_toList (l : List Char) :
    (if l.length > 31 then String.mk (l.take 31) else String.mk l).toList = l.take 31 := by
  split_ifs with h
  · rfl
  · show l = l.take 31
    rw [List.take_of_length_le (by omega)]

/-- Claim C6 (confirmed).  Sanitization first replaces every occurrence of
a forbidden character (`\`, `/`, `*`, `?`, `:`, `[`, `]`) with `_` and
then keeps the 31-character head: the result is exactly the 31-take of
the character-wise replacement, hence never longer than 31 and free of
forbidden characters, and `A/B*C:D[E]?` sanitizes to `A_B_C_D_E__`. -/
theorem C6_sanitize_sheet_name (name : String) :
    (sanitize_sheet_name name).toList =
      (name.toList.map fun c => if forbiddenChar c then '_' else c).take 31 ∧
    (sanitize_sheet_name name).toList.length ≤ 31 ∧
    ((sanitize_sheet_name name).toList.all fun c => !forbiddenChar c) = true ∧
    sanitize_sheet_name "A/B*C:D[E]?" = "A_B_C_D_E__" := by
  have hmain : (sanitize_sheet_name name).toList =
      (name.toList.map fun c => if forbiddenChar c then '_' else c).take 31 :=
    truncIf_toList _
  refine ⟨hmain, ?_, ?_, by decide⟩
  · rw [hmain, List.length_take]
    omega
  · rw [hmain, List.all_eq_true]
    intro c hc
    obtain ⟨c0, _, heq⟩ := List.mem_map.mp (List.mem_of_mem_take hc)
    subst heq
    by_cases hf : forbiddenChar c0 = true
    · rw [if_pos hf]; decide
    · rw [if_neg hf]; simp [Bool.not_eq_true] at hf ⊢; exact hf

/-! ### Export trace (C7) -/

/-- The predicate `hasRename` distributes over trace concatenation. -/
lemma hasRename_append (l1 l2 : List FsOp) :
    hasRename (l1 ++ l2) = (hasRename l1 || hasRename l2) := by
  induction l1 with
  | nil => rfl
  | cons op ops ih => cases op <;> simp [hasRename, ih]

/-- A block of sheet writes contains no rename. -/
lemma hasRename_map_writeSheet {α : Type} (f : α → String) (l : List α) :
    hasRename (l.map fun x => FsOp.writeSheet (f x)) = false := by
  induction l with
  | nil => rfl
  | cons x xs ih => simpa [hasRename] using ih

/-- The predicate `opsTargetOnly` distributes over trace concatenation. -/
lemma opsTargetOnly_append (p : String) (l1 l2 : List FsOp) :
    opsTargetOnly p (l1 ++ l2) = (opsTargetOnly p l1 && opsTargetOnly p l2) := by
  induction l1 with
  | nil => rfl
  | cons op ops ih => cases op <;> simp [opsTargetOnly, ih, Bool.and_assoc]

/-- A block of sheet writes only goes through the already-open writer. -/
lemma opsTargetOnly_map_writeSheet {α : Type} (p : String) (f : α → String) (l : List α) :
    opsTargetOnly p (l.map fun x => FsOp.writeSheet (f x)) = true := by
  induction l with
  | nil => rfl
  | cons x xs ih => simpa [opsTargetOnly] using ih

/-- Claim C7, amended.  For every response and destination path, the
multi-sheet export opens its writer directly at the destination path,
every action of its filesystem trace addresses that path only, and the
trace contains no rename: the write-to-temporary-then-rename mechanism
the claim describes is absent, so the export is not atomic in the
claimed way (sheet construction failures before the final save leave no
file only because the workbook is buffered in memory until close). -/
theorem C7_writes_directly_no_rename (response_data : Json) (excel_path : String) :
    hasRename (transformar_json_para_excel response_data excel_path).1 = false ∧
    opsTargetOnly excel_path (transformar_json_para_excel response_data excel_path).1 = true ∧
    (transformar_json_para_excel response_data excel_path).1.head? =
      some (.openWriter excel_path) := by
  refine ⟨?_, ?_, rfl⟩
  · simp [transformar_json_para_excel, hasRename_append, hasRename,
      hasRename_map_writeSheet containerSheetName]
  · simp [transformar_json_para_excel, opsTargetOnly_append, opsTargetOnly,
      opsTargetOnly_map_writeSheet excel_path containerSheetName]

/-- Claim C7, counterexample (claim corrected).  The claim states the
export "writes to a temporary path and renames on success".  Exporting a
concrete two-container response to `out.xlsx` produces a trace that
opens the writer at `out.xlsx` itself, writes the three sheets through
it and saves at `out.xlsx` — it contains no rename of any path, so the
claimed temporary-path-and-rename mechanism does not exist in the
code. -/
theorem C7_no_temp_rename_counterexample :
    (transformar_json_para_excel twoContainerResponse "out.xlsx").1 =
      [.openWriter "out.xlsx", .writeSheet "summary",
       .writeSheet "container_1_C40", .writeSheet "container_2_C20",
       .saveClose "out.xlsx"] ∧
    (∀ tmp dst, FsOp.renameFile tmp dst ∉
        (transformar_json_para_excel twoContainerResponse "out.xlsx").1) := by
  refine ⟨rfl, ?_⟩
  intro tmp dst h
  rw [show (transformar_json_para_excel twoContainerResponse "out.xlsx").1 =
      [.openWriter "out.xlsx", .writeSheet "summary",
       .writeSheet "container_1_C40", .writeSheet "container_2_C20",
       .saveClose "out.xlsx"] from rfl] at h
  simp at h

/-! ### Batch reconciliation (C8) -/

/-- Every iteration of the `process_pending_files` loop adds exactly one
to either the success or the failure counter and never touches the total:
an item's exception is caught and the loop continues over the rest. -/
lemma processLoop_counts (remote : Json → Except PyErr Json) :
    ∀ (files : List (String × Json)) (st : AppState) (stats : BatchStats),
      (processLoop remote files st stats).2.processed + (processLoop remote files st stats).2.failed
        = stats.processed + stats.failed + files.length ∧
      (processLoop remote files st stats).2.total_files = stats.total_files := by
  intro files
  induction files with
  | nil => intro st stats; simp [processLoop]
  | cons f fs ih =>
      intro st stats
      obtain ⟨name, payload⟩ := f
      simp only [processLoop]
      rcases hr : remote payload with e | r <;> simp only [processOneFile, hr] <;> constructor
      · rw [(ih _ _).1]; simp; omega
      · rw [(ih _ _).2]
      · rw [(ih _ _).1]; simp; omega
      · rw [(ih _ _).2]

/-- Claim C8 (confirmed).  Batch reconciliation always reports
`total = |backlog|` and `processed + failed = total` — no item's
exception aborts the loop — and on the concrete backlog of three pending
items whose second triggers a remote failure it reports
`total=3, processed=2, failed=1`, leaves exactly item 2 in the pending
store, and moves items 1 and 3 to the processed store with their
artifacts written. -/
theorem C8_batch_reconciliation :
    (∀ (remote : Json → Except PyErr Json) (st : AppState),
       (process_pending_files remote st).1.total_files = st.pendiente.length ∧
       (process_pending_files remote st).1.processed + (process_pending_files remote st).1.failed
         = st.pendiente.length) ∧
    (let remote : Json → Except PyErr Json := fun p =>
       match p with
       | .num 2 => .error (.exc "Erro 500 da API CubeMaster")
       | _ => .ok (.obj [("ok", .bool true)])
     let st0 : AppState := ⟨[("f1", .num 1), ("f2", .num 2), ("f3", .num 3)], [], [], []⟩
     let out := process_pending_files remote st0
     out.1 = ⟨3, 2, 1, [("f1", "success"), ("f2", "failed"), ("f3", "success")]⟩ ∧
     out.2.pendiente = [("f2", .num 2)] ∧
     out.2.procesado = [("f1", .num 1), ("f3", .num 3)] ∧
     (out.2.csv_procesado.map Prod.fst) = ["f1.csv", "f3.csv"]) := by
  constructor
  · intro remote st
    by_cases h : st.pendiente.isEmpty
    · have hnil : st.pendiente = [] := List.isEmpty_iff.mp h
      simp [process_pending_files, h, hnil]
    · have h1 := processLoop_counts remote st.pendiente st ⟨st.pendiente.length, 0, 0, []⟩
      simp only [process_pending_files, h, Bool.false_eq_true, if_false]
      constructor
      · exact h1.2
      · rw [h1.1]; simp
  · exact ⟨rfl, rfl, rfl, rfl⟩

/-! ### Per-collection-key frames (C4) -/

/-- A well-formed frame: every row has one cell per column. -/
def aligned (df : DataFrame) : Prop := ∀ r ∈ df.rows, r.length = df.columns.length

/-- Frames produced by `json_normalize` are well-formed. -/
lemma json_normalize_aligned (records : List (List (String × Json))) :
    aligned (json_normalize records) := by
  intro r hr
  simp only [json_normalize] at hr ⊢
  obtain ⟨f, _, rfl⟩ := List.mem_map.mp hr
  simp

/-- Setting a column to a constant overwrites exactly the cells paired
with that label: looking the label up afterwards yields the constant. -/
lemma lookup_zip_set_self :
    ∀ (cols : List String) (r : List Cell) (c : String) (v : Cell),
      r.length = cols.length → c ∈ cols →
      (cols.zip ((cols.zip r).map fun p => if p.1 = c then v else p.2)).lookup c = some v := by
  intro cols
  induction cols with
  | nil => intro r c v _ hc; cases hc
  | cons a cs ih =>
      intro r c v hlen hc
      cases r with
      | nil => simp at hlen
      | cons x xs =>
          simp only [List.zip_cons_cons, List.map_cons, List.lookup]
          cases hca : c == a
          · have hcs : c ∈ cs := by
              rcases List.mem_cons.mp hc with h | h
              · exact absurd h (by simpa using hca)
              · exact h
            exact ih xs c v (by simpa using hlen) hcs
          · have : a = c := (by simpa using hca : c = a).symm
            simp [this]

/-- Setting a different column leaves the looked-up cell unchanged. -/
lemma lookup_zip_set_other :
    ∀ (cols : List String) (r : List Cell) (c c' : String) (v : Cell), c ≠ c' →
      (cols.zip ((cols.zip r).map fun p => if p.1 = c' then v else p.2)).lookup c
        = (cols.zip r).lookup c := by
  intro cols
  induction cols with
  | nil => intro r c c' v _; rfl
  | cons a cs ih =>
      intro r c c' v hne
      cases r with
      | nil => rfl
      | cons x xs =>
          simp only [List.zip_cons_cons, List.map_cons, List.lookup]
          cases hca : c == a
          · exact ih xs c c' v hne
          · have hac : a = c := (by simpa using hca : c = a).symm
            have : ¬ (a = c') := by rw [hac]; exact hne
            simp [this]

/-- A label absent from the column list looks up to nothing. -/
lemma lookup_zip_none :
    ∀ (cols : List String) (r : List Cell) (c : String), c ∉ cols →
      (cols.zip r).lookup c = none := by
  intro cols
  induction cols with
  | nil => intro r c _; rfl
  | cons a cs ih =>
      intro r c hc
      cases r with
      | nil => rfl
      | cons x xs =>
          simp only [List.zip_cons_cons, List.lookup]
          cases hca : c == a
          · exact ih xs c (fun h => hc (List.mem_cons_of_mem a h))
          · exact absurd (by simpa using hca : c = a) (fun h => hc (h ▸ List.mem_cons_self a cs))

/-- A hit in the front part of an association list survives appending. -/
lemma lookup_append_left {l1 l2 : List (String × Cell)} {c : String} {v : Cell}
    (h : l1.lookup c = some v) : (l1 ++ l2).lookup c = some v := by
  induction l1 with
  | nil => simp [List.lookup] at h
  | cons p t ih =>
      obtain ⟨a, b⟩ := p
      simp only [List.lookup, List.cons_append] at h ⊢
      cases hca : c == a
      · rw [hca] at h; exact ih h
      · rw [hca] at h; exact h

/-- A miss in the front part of an association list defers to the back. -/
lemma lookup_append_right {l1 : List (String × Cell)} (l2 : List (String × Cell)) {c : String}
    (h : l1.lookup c = none) : (l1 ++ l2).lookup c = l2.lookup c := by
  induction l1 with
  | nil => rfl
  | cons p t ih =>
      obtain ⟨a, b⟩ := p
      simp only [List.lookup, List.cons_append] at h ⊢
      cases hca : c == a
      · rw [hca] at h; exact ih h
      · rw [hca] at h; simp at h

/-- Setting a constant column preserves well-formedness. -/
lemma dfSetConstCol_aligned (df : DataFrame) (c : String) (v : Cell) (h : aligned df) :
    aligned (dfSetConstCol df c v) := by
  unfold dfSetConstCol
  split_ifs with hc
  · intro r' hr'
    simp only at hr' ⊢
    obtain ⟨r, hr, rfl⟩ := List.mem_map.mp hr'
    simp [h r hr]
  · intro r' hr'
    simp only at hr' ⊢
    obtain ⟨r, hr, rfl⟩ := List.mem_map.mp hr'
    simp [h r hr]

/-- After setting a column to a constant, every row carries that
constant in that column — the broadcast the code performs with
`df_key[column] = context_flat.iloc[0][column]`. -/
lemma dfSetConstCol_self (df : DataFrame) (c : String) (v : Cell) (h : aligned df) :
    ∀ r' ∈ (dfSetConstCol df c v).rows,
      rowCell (dfSetConstCol df c v).columns r' c = v := by
  unfold dfSetConstCol
  split_ifs with hc
  · intro r' hr'
    simp only at hr'
    obtain ⟨r, hr, rfl⟩ := List.mem_map.mp hr'
    unfold rowCell
    rw [lookup_zip_set_self df.columns r c v (h r hr) (by simpa using hc)]
  · intro r' hr'
    simp only at hr'
    obtain ⟨r, hr, rfl⟩ := List.mem_map.mp hr'
    unfold rowCell
    rw [List.zip_append (by rw [h r hr]),
      lookup_append_right _ (lookup_zip_none df.columns r c (by simpa using hc))]
    simp [List.lookup]

/-- Setting one column does not disturb a constant held by another. -/
lemma dfSetConstCol_preserves (df : DataFrame) (c' : String) (v : Cell) (c : String) (w : Cell)
    (hne : c ≠ c') (h : aligned df)
    (hconst : ∀ r ∈ df.rows, rowCell df.columns r c = w) :
    ∀ r' ∈ (dfSetConstCol df c' v).rows,
      rowCell (dfSetConstCol df c' v).columns r' c = w := by
  have hsingle : ([(c', v)] : List (String × Cell)).lookup c = none := by
    simp only [List.lookup]
    cases hcc : c == c'
    · rfl
    · exact absurd (by simpa using hcc) hne
  unfold dfSetConstCol
  split_ifs with hc
  · intro r' hr'
    simp only at hr' ⊢
    obtain ⟨r, hr, rfl⟩ := List.mem_map.mp hr'
    have hw := hconst r hr
    unfold rowCell at hw ⊢
    rw [lookup_zip_set_other df.columns r c c' v hne]
    exact hw
  · intro r' hr'
    simp only at hr' ⊢
    obtain ⟨r, hr, rfl⟩ := List.mem_map.mp hr'
    have hw := hconst r hr
    unfold rowCell at hw ⊢
    rw [List.zip_append (by rw [h r hr])]
    cases hl : (df.columns.zip r).lookup c with
    | some x =>
        rw [show (List.zip [c'] [v]) = [(c', v)] from rfl, lookup_append_left hl]
        rw [hl] at hw
        exact hw
    | none =>
        rw [show (List.zip [c'] [v]) = [(c', v)] from rfl, lookup_append_right _ hl, hsingle]
        rw [hl] at hw
        exact hw

/-- Folding constant-column sets over labels other than `c` keeps the
constant at `c`. -/
lemma foldl_set_preserves (f : String → Cell) (c : String) (w : Cell) :
    ∀ (cs : List String) (df : DataFrame), aligned df → c ∉ cs →
      (∀ r ∈ df.rows, rowCell df.columns r c = w) →
      aligned (cs.foldl (fun d c0 => dfSetConstCol d c0 (f c0)) df) ∧
      ∀ r ∈ (cs.foldl (fun d c0 => dfSetConstCol d c0 (f c0)) df).rows,
        rowCell (cs.foldl (fun d c0 => dfSetConstCol d c0 (f c0)) df).columns r c = w := by
  intro cs
  induction cs with
  | nil => intro df h _ hconst; exact ⟨h, hconst⟩
  | cons c0 cs' ih =>
      intro df h hnot hconst
      simp only [List.foldl_cons]
      have hne : c ≠ c0 := fun hh => hnot (hh ▸ List.mem_cons_self c0 cs')
      exact ih (dfSetConstCol df c0 (f c0)) (dfSetConstCol_aligned df c0 (f c0) h)
        (fun hh => hnot (List.mem_cons_of_mem c0 hh))
        (dfSetConstCol_preserves df c0 (f c0) c w hne h hconst)

/-- After folding constant-column sets over a list of labels, every one
of those labels holds its constant in every row. -/
lemma foldl_set_broadcast (f : String → Cell) :
    ∀ (cs : List String) (df : DataFrame), aligned df →
      aligned (cs.foldl (fun d c0 => dfSetConstCol d c0 (f c0)) df) ∧
      ∀ c ∈ cs, ∀ r ∈ (cs.foldl (fun d c0 => dfSetConstCol d c0 (f c0)) df).rows,
        rowCell (cs.foldl (fun d c0 => dfSetConstCol d c0 (f c0)) df).columns r c = f c := by
  intro cs
  induction cs with
  | nil => intro df h; exact ⟨h, by simp⟩
  | cons c0 cs' ih =>
      intro df h
      simp only [List.foldl_cons]
      have h1 := dfSetConstCol_aligned df c0 (f c0) h
      obtain ⟨ha, hb⟩ := ih (dfSetConstCol df c0 (f c0)) h1
      refine ⟨ha, ?_⟩
      intro c hcmem r hr
      rcases List.mem_cons.mp hcmem with rfl | hmem
      · by_cases hmem2 : c ∈ cs'
        · exact hb c hmem2 r hr
        · exact (foldl_set_preserves f c (f c) cs' (dfSetConstCol df c (f c)) h1 hmem2
            (dfSetConstCol_self df c (f c) h)).2 r hr
      · exact hb c hmem r hr

/-- Folding constant-column sets adds no column outside the folded
labels. -/
lemma foldl_set_columns (f : String → Cell) :
    ∀ (cs : List String) (df : DataFrame) (c : String),
      c ∈ (cs.foldl (fun d c0 => dfSetConstCol d c0 (f c0)) df).columns →
      c ∈ df.columns ∨ c ∈ cs := by
  intro cs
  induction cs with
  | nil => intro df c h; exact Or.inl h
  | cons c0 cs' ih =>
      intro df c h
      simp only [List.foldl_cons] at h
      rcases ih (dfSetConstCol df c0 (f c0)) c h with h1 | h1
      · unfold dfSetConstCol at h1
        split_ifs at h1 with hc
        · exact Or.inl h1
        · rcases List.mem_append.mp h1 with h2 | h2
          · exact Or.inl h2
          · simp at h2
            exact Or.inr (h2 ▸ List.mem_cons_self c0 cs')
      · exact Or.inr (List.mem_cons_of_mem c0 h1)

/-- Claim C4, amended.  For every collection key, the per-key frame the
code builds has only `<key>.`-prefixed record columns and context
columns, and every context column holds the identical broadcast value
(the context's single flattened row cell) in every row.  The frames are
then concatenated into a single combined table by `pd.concat` rather
than kept independent — see the counterexample. -/
theorem C4_per_key_frames_broadcast (context : List (String × Json)) (key : String)
    (records : List Json) :
    (∀ c ∈ (keyFrame (some (json_normalize [context])) key records).columns,
       (∃ c0, c0 ∈ (json_normalize (records.map objFields)).columns ∧ c = key ++ "." ++ c0) ∨
         c ∈ (json_normalize [context]).columns) ∧
    (∀ c ∈ (json_normalize [context]).columns,
       ∀ r ∈ (keyFrame (some (json_normalize [context])) key records).rows,
         rowCell (keyFrame (some (json_normalize [context])) key records).columns r c =
           rowCell (json_normalize [context]).columns ((json_normalize [context]).rows.headI) c) := by
  have hal : aligned (DataFrame.mk
      ((json_normalize (records.map objFields)).columns.map (fun c => key ++ "." ++ c))
      (json_normalize (records.map objFields)).rows) := by
    intro r hr
    simp only [List.length_map]
    exact json_normalize_aligned _ r hr
  constructor
  · intro c hc
    rcases foldl_set_columns
        (fun c0 => rowCell (json_normalize [context]).columns ((json_normalize [context]).rows.headI) c0)
        (json_normalize [context]).columns
        (DataFrame.mk
          ((json_normalize (records.map objFields)).columns.map (fun c0 => key ++ "." ++ c0))
          (json_normalize (records.map objFields)).rows) c hc with h1 | h1
    · obtain ⟨c0, hc0, rfl⟩ := List.mem_map.mp h1
      exact Or.inl ⟨c0, hc0, rfl⟩
    · exact Or.inr h1
  · intro c hc r hr
    exact (foldl_set_broadcast
        (fun c0 => rowCell (json_normalize [context]).columns ((json_normalize [context]).rows.headI) c0)
        (json_normalize [context]).columns _ hal).2 c hc r hr

/-- Witness for the amended C4 theorem at a concrete one-record,
one-context-key input: the prefixed column `items.a` is classified, and
the `ctx` cell of the frame's single row equals the context's broadcast
value. -/
theorem C4_per_key_frames_broadcast_witness :
    ((∃ c0, c0 ∈ (json_normalize ([Json.obj [("a", Json.num 1)]].map objFields)).columns ∧
        "items.a" = "items" ++ "." ++ c0) ∨
      "items.a" ∈ (json_normalize [[("ctx", Json.str "x")]]).columns) ∧
    rowCell (keyFrame (some (json_normalize [[("ctx", Json.str "x")]])) "items"
        [Json.obj [("a", Json.num 1)]]).columns
      [Cell.val (Json.num 1), Cell.val (Json.str "x")] "ctx"
      = rowCell (json_normalize [[("ctx", Json.str "x")]]).columns
          ((json_normalize [[("ctx", Json.str "x")]]).rows.headI) "ctx" :=
  ⟨(C4_per_key_frames_broadcast [("ctx", .str "x")] "items" [.obj [("a", .num 1)]]).1
      "items.a" (by decide),
   (C4_per_key_frames_broadcast [("ctx", .str "x")] "items" [.obj [("a", .num 1)]]).2
      "ctx" (by decide) [Cell.val (Json.num 1), Cell.val (Json.str "x")] (List.Mem.head _)⟩

/-- Claim C4, counterexample (claim corrected).  The claim states that
the tables built for different collection keys "remain independent (not
joined into a single combined table)".  Flattening an object with the
two collection keys `items` and `boxes` produces ONE table whose columns
mix both keys (`items.a` and `boxes.b` side by side), whose two rows are
the stacked per-key rows, and whose missing cells are `NaN`-filled —
`pd.concat` has joined the per-key frames into a single combined
table. -/
theorem C4_single_combined_table_counterexample :
    response_to_dataframe twoKeyInput =
      ⟨["items.a", "ctx", "boxes.b"],
       [[Cell.val (.num 1), Cell.val (.str "x"), Cell.na],
        [Cell.na, Cell.val (.str "x"), Cell.val (.num 2)]]⟩ ∧
    "items.a" ∈ (response_to_dataframe twoKeyInput).columns ∧
    "boxes.b" ∈ (response_to_dataframe twoKeyInput).columns ∧
    (response_to_dataframe twoKeyInput).rows.length = 2 :=
  ⟨rfl, by decide, by decide, rfl⟩

end CubePoC
